import Mathlib

/-!
Shallow embedding of `src/consul/lock.py` (class `ConsulLock`): a client-side
distributed lock built on a Consul-like session/key-value HTTP service.

The network is modelled by a `ConsulEnv` record of responses; each method of
the class becomes a function from the instance state (`LockState`) and the
environment to an `Outcome`: the Python return value or raised exception
(`Except PyError α`), the mutated instance state, and the list of HTTP
requests issued, in order.
-/

namespace ConsulLock

/-- Python exceptions that the embedded methods can raise:
`ConsulLock.LockParameterException`, `ConsulLock.LockAcquireException`, and
the `TypeError` raised by `str.join` when a path segment is `None`. -/
inductive PyError where
  | lockParameterException (msg : String)
  | lockAcquireException (msg : String)
  | typeError (msg : String)
deriving Repr, DecidableEq

/-- An element of the JSON array returned by `GET v1/session/info/<id>`;
the code reads field `ID` (`session['ID']`). -/
structure SessionEntry where
  ID : String
deriving Repr, DecidableEq

/-- An element of the JSON array returned by `GET v1/kv/<key>`; the code
reads field `Session` (`lock['Session']`). -/
structure KvEntry where
  Session : String
deriving Repr, DecidableEq

/-- Response to `PUT v1/session/create`; the code reads `response.json()['ID']`. -/
structure CreateResp where
  ID : String
deriving Repr, DecidableEq

/-- Response to `GET v1/session/info/<id>`: a status code and the parsed JSON array. -/
structure InfoResp where
  status_code : Nat
  entries : List SessionEntry
deriving Repr, DecidableEq

/-- Response to the conditional write `PUT v1/kv/<key>?acquire=<session>`;
the code inspects `acquire_response.content`. -/
structure AcquireResp where
  content : String
deriving Repr, DecidableEq

/-- Response to the post-write re-read `GET v1/kv/<key>`: a status code and
the parsed JSON array. -/
structure KvGetResp where
  status_code : Nat
  entries : List KvEntry
deriving Repr, DecidableEq

/-- The environment: what the coordination service answers to each request
the embedded methods can make.  The destroy and renew responses are ignored
by the code, so they are not modelled. -/
structure ConsulEnv where
  createResp : CreateResp
  infoResp : String → InfoResp
  acquireResp : AcquireResp
  kvGetResp : KvGetResp

/-- One HTTP request issued by the code, tagged by which call site issued it,
carrying the full URL built by `_endpoint` (and the body/params where the
code sends one). -/
inductive Request where
  | sessionCreate (url : String) (body : String)
  | sessionInfo (url : String)
  | sessionDestroy (url : String)
  | sessionRenew (url : String)
  | kvAcquirePut (url : String) (acquire : Option String) (body : String)
  | kvGet (url : String)
deriving Repr, DecidableEq

/-- The mutable instance attributes of a `ConsulLock` object.  The Python
thread handle `_heartbeat_thread` is modelled by whether it is `None`. -/
structure LockState where
  consul_base_path : String
  session_id : Option String
  heartbeating : Bool
  heartbeat_thread : Option Unit
  lock_key : String
  lock_value : String
deriving Repr, DecidableEq

/-- Result of running one method: the Python return value or raised
exception, the instance state after the call, and the requests issued. -/
structure Outcome (α : Type) where
  result : Except PyError α
  state : LockState
  trace : List Request
deriving Repr

/-- The `_session_endpoints` class dict.  Lookup of an absent key is `none`
(a `KeyError` in Python; all uses in the source look up present keys). -/
def _session_endpoints (key : String) : Option String :=
  if key = "create" then some "v1/session/create"
  else if key = "destroy" then some "v1/session/destroy"
  else if key = "renew" then some "v1/session/renew"
  else if key = "info" then some "v1/session/info"
  else none

/-- The `_kv_endpoints` class dict. -/
def _kv_endpoints (key : String) : Option String :=
  if key = "kv" then some "v1/kv"
  else if key = "txn" then some "v1/txn"
  else none

/-- `json.dumps(self._session_create_payload)`: the body sent to create a session. -/
def _session_create_payload_json : String :=
  "\x7b\"Name\": \"lock\", \"Behavior\": \"delete\", \"TTL\": \"15s\"\x7d"

/-- `__init__`: stores the base path, clears the session/heartbeat state, and
raises `LockParameterException` when `lock_key` or `lock_value` is `None`.
It makes no HTTP request, hence the always-empty trace component. -/
def __init__ (consul_host : String) (consul_port : Nat)
    (lock_key lock_value : Option String) :
    Except PyError LockState × List Request :=
  match lock_key, lock_value with
  | some k, some v =>
      (.ok { consul_base_path := consul_host ++ ":" ++ toString consul_port,
             session_id := none, heartbeating := false, heartbeat_thread := none,
             lock_key := k, lock_value := v }, [])
  | _, _ =>
      (.error (.lockParameterException "lock_key and lock_value are required parameters"), [])

/-- `_endpoint`: `'/'.join([self._consul_base_path] + list(segments))`.
Joining a `None` segment raises a `TypeError` in Python. -/
def _endpoint (s : LockState) (segments : List (Option String)) : Except PyError String :=
  match segments.mapM id with
  | some segs => .ok (String.intercalate "/" (s.consul_base_path :: segs))
  | none => .error (.typeError "sequence item: expected str instance, NoneType found")

/-- `_stop_heartbeat`: clears the running flag; if a thread handle exists it
is joined (a timing effect, not modelled) and the handle is set to `None`. -/
def _stop_heartbeat (s : LockState) : LockState :=
  let s1 := { s with heartbeating := false }
  match s1.heartbeat_thread with
  | some _ => { s1 with heartbeat_thread := none }
  | none => s1

/-- `_start_heartbeat`: first stops any previous heartbeat, then sets the
running flag and starts a fresh background thread. -/
def _start_heartbeat (s : LockState) : LockState :=
  let s1 := _stop_heartbeat s
  { s1 with heartbeating := true, heartbeat_thread := some () }

/-- `_acquire_session`: if no session is cached, `PUT` the create endpoint,
cache the returned `ID` and start the heartbeat; otherwise `GET` the info
endpoint for the cached id and, when the status is not 200 or the id is
absent from the returned array, clear the cached id and recurse. -/
def _acquire_session (s : LockState) (env : ConsulEnv) : Outcome String :=
  match h : s.session_id with
  | none =>
    match _endpoint s [_session_endpoints "create"] with
    | .error e => ⟨.error e, s, []⟩
    | .ok endpoint =>
      let response := env.createResp
      let s1 := { s with session_id := some response.ID }
      let s2 := _start_heartbeat s1
      ⟨.ok response.ID, s2, [.sessionCreate endpoint _session_create_payload_json]⟩
  | some sid =>
    match _endpoint s [_session_endpoints "info", some sid] with
    | .error e => ⟨.error e, s, []⟩
    | .ok endpoint =>
      let sessions := env.infoResp sid
      if sessions.status_code ≠ 200 then
        let retry := _acquire_session { s with session_id := none } env
        ⟨retry.result, retry.state, .sessionInfo endpoint :: retry.trace⟩
      else if sessions.entries.any (fun session => session.ID == sid) then
        ⟨.ok sid, s, [.sessionInfo endpoint]⟩
      else
        let retry := _acquire_session { s with session_id := none } env
        ⟨retry.result, retry.state, .sessionInfo endpoint :: retry.trace⟩
termination_by (if s.session_id.isSome then 1 else 0)
decreasing_by
  all_goals simp [h]

/-- `session_is_active`: `False` when no session is cached; otherwise `GET`
the info endpoint and answer whether some returned entry's `ID` equals the
cached id (a non-200 status answers `False`). -/
def session_is_active (s : LockState) (env : ConsulEnv) : Outcome Bool :=
  match s.session_id with
  | none => ⟨.ok false, s, []⟩
  | some sid =>
    match _endpoint s [_session_endpoints "info", some sid] with
    | .error e => ⟨.error e, s, []⟩
    | .ok endpoint =>
      let sessions := env.infoResp sid
      if sessions.status_code ≠ 200 then ⟨.ok false, s, [.sessionInfo endpoint]⟩
      else if sessions.entries.any (fun session => session.ID == sid) then
        ⟨.ok true, s, [.sessionInfo endpoint]⟩
      else ⟨.ok false, s, [.sessionInfo endpoint]⟩

/-- `_release_session`: `PUT` the destroy endpoint for the cached session id
(building that endpoint joins `self._session_id` into the path, so it raises
a `TypeError` when the id is `None`), then clear the id, stop the heartbeat,
and return the (now `None`) id. -/
def _release_session (s : LockState) (env : ConsulEnv) : Outcome (Option String) :=
  match _endpoint s [_session_endpoints "destroy", s.session_id] with
  | .error e => ⟨.error e, s, []⟩
  | .ok endpoint =>
    let s1 := { s with session_id := none }
    let s2 := _stop_heartbeat s1
    ⟨.ok s2.session_id, s2, [.sessionDestroy endpoint]⟩

/-- `_lock`: conditional write `PUT v1/kv/<key>?acquire=<session>`; on the
literal body `'false'` release the session and raise; otherwise re-read the
key: on non-200 release and raise, on 200 release and raise if any returned
entry's `Session` differs from the cached session id, else succeed. -/
def _lock (s : LockState) (env : ConsulEnv) : Outcome Unit :=
  let lock_failure_response := "false"
  let key_success_status_code := 200
  match _endpoint s [_kv_endpoints "kv", some s.lock_key] with
  | .error e => ⟨.error e, s, []⟩
  | .ok endpoint =>
    let acquire_response := env.acquireResp
    let tr0 := [Request.kvAcquirePut endpoint s.session_id s.lock_value]
    if acquire_response.content = lock_failure_response then
      let rel := _release_session s env
      match rel.result with
      | .error e => ⟨.error e, rel.state, tr0 ++ rel.trace⟩
      | .ok _ => ⟨.error (.lockAcquireException "Failed to acquire lock"),
                  rel.state, tr0 ++ rel.trace⟩
    else
      let response := env.kvGetResp
      let tr1 := tr0 ++ [Request.kvGet endpoint]
      if response.status_code = key_success_status_code then
        let response_list := response.entries
        if response_list.any (fun lock => some lock.Session != s.session_id) then
          let rel := _release_session s env
          match rel.result with
          | .error e => ⟨.error e, rel.state, tr1 ++ rel.trace⟩
          | .ok _ => ⟨.error (.lockAcquireException "Failed to acquire lock"),
                      rel.state, tr1 ++ rel.trace⟩
        else ⟨.ok (), s, tr1⟩
      else
        let rel := _release_session s env
        match rel.result with
        | .error e => ⟨.error e, rel.state, tr1 ++ rel.trace⟩
        | .ok _ => ⟨.error (.lockAcquireException "Could not get the lock key"),
                    rel.state, tr1 ++ rel.trace⟩

/-- `__enter__`: under the semaphore (a no-op in this single-caller model),
acquire a session then acquire the lock; an exception in either propagates. -/
def __enter__ (s : LockState) (env : ConsulEnv) : Outcome Unit :=
  let acq := _acquire_session s env
  match acq.result with
  | .error e => ⟨.error e, acq.state, acq.trace⟩
  | .ok _ =>
    let lk := _lock acq.state env
    ⟨lk.result, lk.state, acq.trace ++ lk.trace⟩

/-- `__exit__`: under the semaphore, release the session (its return value is
discarded; `__exit__` itself returns `None`). -/
def __exit__ (s : LockState) (env : ConsulEnv) : Outcome Unit :=
  let rel := _release_session s env
  ⟨rel.result.map (fun _ => ()), rel.state, rel.trace⟩

/-- Fuel-indexed variant of `_acquire_session`, identical except that every
self-call consumes one unit of fuel and exhausted fuel answers `none`.  Used
to state that the self-recursion depth of `_acquire_session` is bounded. -/
def _acquire_session_fuel (fuel : Nat) (s : LockState) (env : ConsulEnv) :
    Option (Outcome String) :=
  match fuel with
  | 0 => none
  | fuel + 1 =>
    match s.session_id with
    | none =>
      match _endpoint s [_session_endpoints "create"] with
      | .error e => some ⟨.error e, s, []⟩
      | .ok endpoint =>
        let response := env.createResp
        let s1 := { s with session_id := some response.ID }
        let s2 := _start_heartbeat s1
        some ⟨.ok response.ID, s2, [.sessionCreate endpoint _session_create_payload_json]⟩
    | some sid =>
      match _endpoint s [_session_endpoints "info", some sid] with
      | .error e => some ⟨.error e, s, []⟩
      | .ok endpoint =>
        let sessions := env.infoResp sid
        if sessions.status_code ≠ 200 then
          (_acquire_session_fuel fuel { s with session_id := none } env).map
            (fun retry => ⟨retry.result, retry.state, .sessionInfo endpoint :: retry.trace⟩)
        else if sessions.entries.any (fun session => session.ID == sid) then
          some ⟨.ok sid, s, [.sessionInfo endpoint]⟩
        else
          (_acquire_session_fuel fuel { s with session_id := none } env).map
            (fun retry => ⟨retry.result, retry.state, .sessionInfo endpoint :: retry.trace⟩)

/-! Helper lemmas: closed-form characterizations of each method, one per
branch of the source, used by the claim theorems below. -/

theorem session_endpoints_create_eq : _session_endpoints "create" = some "v1/session/create" := rfl

theorem session_endpoints_destroy_eq : _session_endpoints "destroy" = some "v1/session/destroy" := rfl

theorem session_endpoints_info_eq : _session_endpoints "info" = some "v1/session/info" := rfl

theorem kv_endpoints_kv_eq : _kv_endpoints "kv" = some "v1/kv" := rfl

theorem endpoint_one (s : LockState) (a : String) :
    _endpoint s [some a] = .ok (String.intercalate "/" [s.consul_base_path, a]) := rfl

theorem endpoint_two (s : LockState) (a b : String) :
    _endpoint s [some a, some b] = .ok (String.intercalate "/" [s.consul_base_path, a, b]) := rfl

theorem endpoint_two_none (s : LockState) (a : String) :
    _endpoint s [some a, none] =
      .error (.typeError "sequence item: expected str instance, NoneType found") := rfl

theorem acquire_session_create (s : LockState) (env : ConsulEnv) (hs : s.session_id = none) :
    _acquire_session s env =
      ⟨.ok env.createResp.ID,
       { s with session_id := some env.createResp.ID,
                heartbeating := true, heartbeat_thread := some () },
       [.sessionCreate (String.intercalate "/" [s.consul_base_path, "v1/session/create"])
          _session_create_payload_json]⟩ := by
  obtain ⟨base, sid?, hb, ht, k, v⟩ := s
  dsimp only at hs
  subst hs
  rw [_acquire_session]
  cases ht <;> rfl

theorem acquire_session_stale (s : LockState) (sid : String) (env : ConsulEnv)
    (hs : s.session_id = some sid)
    (hbad : (env.infoResp sid).status_code ≠ 200 ∨
            ¬ (env.infoResp sid).entries.any (fun session => session.ID == sid)) :
    _acquire_session s env =
      ⟨.ok env.createResp.ID,
       { s with session_id := some env.createResp.ID,
                heartbeating := true, heartbeat_thread := some () },
       [.sessionInfo (String.intercalate "/" [s.consul_base_path, "v1/session/info", sid]),
        .sessionCreate (String.intercalate "/" [s.consul_base_path, "v1/session/create"])
          _session_create_payload_json]⟩ := by
  obtain ⟨base, sid?, hb, ht, k, v⟩ := s
  dsimp only at hs ⊢
  subst hs
  rw [_acquire_session]
  rw [acquire_session_create _ _ rfl]
  rcases hbad with hbad | hbad
  · simp [hbad, session_endpoints_info_eq, endpoint_two]
  · by_cases hst : (env.infoResp sid).status_code = 200 <;>
      simp [hst, hbad, session_endpoints_info_eq, endpoint_two]

theorem acquire_session_live (s : LockState) (sid : String) (env : ConsulEnv)
    (hs : s.session_id = some sid)
    (hst : (env.infoResp sid).status_code = 200)
    (hfound : (env.infoResp sid).entries.any (fun session => session.ID == sid)) :
    _acquire_session s env =
      ⟨.ok sid, s,
       [.sessionInfo (String.intercalate "/" [s.consul_base_path, "v1/session/info", sid])]⟩ := by
  obtain ⟨base, sid?, hb, ht, k, v⟩ := s
  dsimp only at hs ⊢
  subst hs
  rw [_acquire_session]
  simp [hst, hfound, session_endpoints_info_eq, endpoint_two]

theorem release_session_none (s : LockState) (env : ConsulEnv) (hs : s.session_id = none) :
    _release_session s env =
      ⟨.error (.typeError "sequence item: expected str instance, NoneType found"), s, []⟩ := by
  unfold _release_session
  rw [hs, session_endpoints_destroy_eq, endpoint_two_none]

theorem release_session_some (s : LockState) (sid : String) (env : ConsulEnv)
    (hs : s.session_id = some sid) :
    _release_session s env =
      ⟨.ok none,
       { s with session_id := none, heartbeating := false, heartbeat_thread := none },
       [.sessionDestroy (String.intercalate "/" [s.consul_base_path, "v1/session/destroy", sid])]⟩ := by
  obtain ⟨base, sid?, hb, ht, k, v⟩ := s
  dsimp only at hs ⊢
  subst hs
  unfold _release_session
  cases ht <;> rfl

theorem session_is_active_none (s : LockState) (env : ConsulEnv) (hs : s.session_id = none) :
    session_is_active s env = ⟨.ok false, s, []⟩ := by
  obtain ⟨base, sid?, hb, ht, k, v⟩ := s
  dsimp only at hs
  subst hs
  rfl

theorem session_is_active_some (s : LockState) (sid : String) (env : ConsulEnv)
    (hs : s.session_id = some sid) :
    session_is_active s env =
      ⟨.ok (((env.infoResp sid).status_code == 200) &&
            (env.infoResp sid).entries.any (fun session => session.ID == sid)), s,
       [.sessionInfo (String.intercalate "/" [s.consul_base_path, "v1/session/info", sid])]⟩ := by
  obtain ⟨base, sid?, hb, ht, k, v⟩ := s
  dsimp only at hs ⊢
  subst hs
  unfold session_is_active
  by_cases hst : (env.infoResp sid).status_code = 200 <;>
    by_cases hf : (env.infoResp sid).entries.any (fun session => session.ID == sid) <;>
      simp [hst, hf, endpoint_two, session_endpoints_info_eq]

theorem lock_sentinel (s : LockState) (sid : String) (env : ConsulEnv)
    (hs : s.session_id = some sid)
    (hco : env.acquireResp.content = "false") :
    _lock s env =
      ⟨.error (.lockAcquireException "Failed to acquire lock"),
       { s with session_id := none, heartbeating := false, heartbeat_thread := none },
       [.kvAcquirePut (String.intercalate "/" [s.consul_base_path, "v1/kv", s.lock_key])
          (some sid) s.lock_value,
        .sessionDestroy (String.intercalate "/" [s.consul_base_path, "v1/session/destroy", sid])]⟩ := by
  unfold _lock
  rw [kv_endpoints_kv_eq, endpoint_two, release_session_some s sid env hs, hs]
  simp [hco]

theorem lock_read_fail (s : LockState) (sid : String) (env : ConsulEnv)
    (hs : s.session_id = some sid)
    (hco : env.acquireResp.content ≠ "false")
    (hst : env.kvGetResp.status_code ≠ 200) :
    _lock s env =
      ⟨.error (.lockAcquireException "Could not get the lock key"),
       { s with session_id := none, heartbeating := false, heartbeat_thread := none },
       [.kvAcquirePut (String.intercalate "/" [s.consul_base_path, "v1/kv", s.lock_key])
          (some sid) s.lock_value,
        .kvGet (String.intercalate "/" [s.consul_base_path, "v1/kv", s.lock_key]),
        .sessionDestroy (String.intercalate "/" [s.consul_base_path, "v1/session/destroy", sid])]⟩ := by
  unfold _lock
  rw [kv_endpoints_kv_eq, endpoint_two, release_session_some s sid env hs, hs]
  simp [hco, hst]

theorem lock_mismatch (s : LockState) (sid : String) (env : ConsulEnv)
    (hs : s.session_id = some sid)
    (hco : env.acquireResp.content ≠ "false")
    (hst : env.kvGetResp.status_code = 200)
    (hmis : env.kvGetResp.entries.any (fun lock => lock.Session != sid)) :
    _lock s env =
      ⟨.error (.lockAcquireException "Failed to acquire lock"),
       { s with session_id := none, heartbeating := false, heartbeat_thread := none },
       [.kvAcquirePut (String.intercalate "/" [s.consul_base_path, "v1/kv", s.lock_key])
          (some sid) s.lock_value,
        .kvGet (String.intercalate "/" [s.consul_base_path, "v1/kv", s.lock_key]),
        .sessionDestroy (String.intercalate "/" [s.consul_base_path, "v1/session/destroy", sid])]⟩ := by
  unfold _lock
  rw [kv_endpoints_kv_eq, endpoint_two, release_session_some s sid env hs, hs]
  simp only [hst]
  simp at hmis
  obtain ⟨lk, hlk, hne⟩ := hmis
  have hany : env.kvGetResp.entries.any (fun lock => some lock.Session != some sid) := by
    simp
    exact ⟨lk, hlk, hne⟩
  simp [hco, hany]

theorem lock_success (s : LockState) (sid : String) (env : ConsulEnv)
    (hs : s.session_id = some sid)
    (hco : env.acquireResp.content ≠ "false")
    (hst : env.kvGetResp.status_code = 200)
    (hok : ∀ lock ∈ env.kvGetResp.entries, lock.Session = sid) :
    _lock s env =
      ⟨.ok (), s,
       [.kvAcquirePut (String.intercalate "/" [s.consul_base_path, "v1/kv", s.lock_key])
          (some sid) s.lock_value,
        .kvGet (String.intercalate "/" [s.consul_base_path, "v1/kv", s.lock_key])]⟩ := by
  unfold _lock
  rw [kv_endpoints_kv_eq, endpoint_two, hs]
  have hany : ¬ env.kvGetResp.entries.any (fun lock => some lock.Session != some sid) := by
    simp
    exact hok
  simp [hco, hst, hany]

/-! Concrete states and environments used by witnesses and counterexamples. -/

/-- Concrete instance state used by the witnesses: session "s1" cached and
the heartbeat running. -/
def sampleHeld : LockState :=
  { consul_base_path := "http://localhost:8500", session_id := some "s1",
    heartbeating := true, heartbeat_thread := some (), lock_key := "k", lock_value := "v" }

/-- Concrete Idle instance state: no cached session, no heartbeat. -/
def sampleIdle : LockState :=
  { sampleHeld with session_id := none, heartbeating := false, heartbeat_thread := none }

/-- Concrete service behaviour: confirms session "s1", grants the conditional
write, and answers the re-read with a single entry bound to "s1". -/
def sampleEnvOk : ConsulEnv :=
  { createResp := ⟨"s1"⟩,
    infoResp := fun _ => ⟨200, [⟨"s1"⟩]⟩,
    acquireResp := ⟨"true"⟩,
    kvGetResp := ⟨200, [⟨"s1"⟩]⟩ }

/-- Like `sampleEnvOk` but the conditional write answers the failure sentinel. -/
def sampleEnvSentinel : ConsulEnv := { sampleEnvOk with acquireResp := ⟨"false"⟩ }

/-- Like `sampleEnvOk` but the re-read returns an empty entry array. -/
def sampleEnvEmptyRead : ConsulEnv := { sampleEnvOk with kvGetResp := ⟨200, []⟩ }

/-- Like `sampleEnvOk` but the session-info query answers 404. -/
def sampleEnvStale : ConsulEnv := { sampleEnvOk with infoResp := fun _ => ⟨404, []⟩ }

/-- The instance state produced by a successful construction with key "k" and
value "v" against host "http://localhost", port 8500. -/
def initState : LockState :=
  { consul_base_path := "http://localhost:8500", session_id := none, heartbeating := false,
    heartbeat_thread := none, lock_key := "k", lock_value := "v" }

/-! Further helper lemmas. -/

theorem lock_none (s : LockState) (env : ConsulEnv) (hs : s.session_id = none) :
    (_lock s env).state = s ∧
    ((_lock s env).result = .ok () ∨
      (_lock s env).result =
        .error (.typeError "sequence item: expected str instance, NoneType found")) := by
  unfold _lock
  rw [kv_endpoints_kv_eq, endpoint_two, release_session_none s env hs, hs]
  by_cases hco : env.acquireResp.content = "false"
  · simp [hco]
  · by_cases hst : env.kvGetResp.status_code = 200
    · cases hent : env.kvGetResp.entries with
      | nil => simp [hco, hst, hent]
      | cons a t => simp [hco, hst, hent]
    · simp [hco, hst]

theorem acquire_session_always_ok (s : LockState) (env : ConsulEnv) :
    ∃ sid, (_acquire_session s env).result = .ok sid ∧
           (_acquire_session s env).state.session_id = some sid := by
  rcases hs : s.session_id with _ | sid
  · rw [acquire_session_create s env hs]; exact ⟨_, rfl, rfl⟩
  · by_cases hst : (env.infoResp sid).status_code = 200
    · by_cases hf : (env.infoResp sid).entries.any (fun session => session.ID == sid)
      · rw [acquire_session_live s sid env hs hst hf]; exact ⟨sid, rfl, hs⟩
      · rw [acquire_session_stale s sid env hs (Or.inr hf)]; exact ⟨_, rfl, rfl⟩
    · rw [acquire_session_stale s sid env hs (Or.inl hst)]; exact ⟨_, rfl, rfl⟩

theorem enter_eq (s : LockState) (env : ConsulEnv) :
    __enter__ s env =
      ⟨(_lock (_acquire_session s env).state env).result,
       (_lock (_acquire_session s env).state env).state,
       (_acquire_session s env).trace ++ (_lock (_acquire_session s env).state env).trace⟩ := by
  obtain ⟨sid, hres, hstate⟩ := acquire_session_always_ok s env
  simp only [__enter__]
  rw [hres]

theorem lock_ok_state (s : LockState) (env : ConsulEnv)
    (h : (_lock s env).result = .ok ()) : (_lock s env).state = s := by
  rcases hs : s.session_id with _ | sid
  · exact (lock_none s env hs).1
  · by_cases hco : env.acquireResp.content = "false"
    · rw [lock_sentinel s sid env hs hco] at h; simp at h
    · by_cases hst : env.kvGetResp.status_code = 200
      · by_cases hmis : env.kvGetResp.entries.any (fun lock => lock.Session != sid)
        · rw [lock_mismatch s sid env hs hco hst hmis] at h; simp at h
        · have hok : ∀ lock ∈ env.kvGetResp.entries, lock.Session = sid := by simpa using hmis
          rw [lock_success s sid env hs hco hst hok]
      · rw [lock_read_fail s sid env hs hco hst] at h; simp at h

theorem acquire_session_fuel_one_none (s : LockState) (env : ConsulEnv)
    (hs : s.session_id = none) :
    _acquire_session_fuel 1 s env = some (_acquire_session s env) := by
  obtain ⟨base, sid?, hb, ht, k, v⟩ := s
  dsimp only at hs
  subst hs
  rw [acquire_session_create _ env rfl]
  cases ht <;> rfl

/-! Claim theorems. -/

/-- C1, counterexample: the claim that `_lock` succeeds only if the post-write
re-read shows at least one entry bound to the cached session is false on the
code: when the write does not answer the sentinel and the re-read answers
status 200 with an empty entry array, the verification loop inspects nothing,
`_lock` succeeds, and the session is kept, although no returned entry is
bound to the cached session. -/
theorem c1_counterexample :
    sampleEnvEmptyRead.acquireResp.content ≠ "false" ∧
    (¬ ∃ lock ∈ sampleEnvEmptyRead.kvGetResp.entries,
        some lock.Session = sampleHeld.session_id) ∧
    (_lock sampleHeld sampleEnvEmptyRead).result = .ok () ∧
    (_lock sampleHeld sampleEnvEmptyRead).state.session_id = some "s1" :=
  ⟨by decide, by simp [sampleEnvEmptyRead, sampleEnvOk], rfl, rfl⟩

/-- C1, amended: after a conditional write that does not report the failure
sentinel, `_lock` succeeds iff the re-read has success status and every
returned entry's bound session equals the cached session identifier (an empty
entry array therefore also succeeds); and for every re-read result containing
an entry bound to a different session, the session is released and
`LockAcquireException` is raised. -/
theorem c1_amended (s : LockState) (sid : String) (env : ConsulEnv)
    (hs : s.session_id = some sid)
    (hco : env.acquireResp.content ≠ "false") :
    ((_lock s env).result = .ok () ↔
      env.kvGetResp.status_code = 200 ∧
        ∀ lock ∈ env.kvGetResp.entries, lock.Session = sid) ∧
    ((∃ lock ∈ env.kvGetResp.entries, lock.Session ≠ sid) →
      (∃ msg, (_lock s env).result = .error (.lockAcquireException msg)) ∧
      (_lock s env).state.session_id = none ∧
      ∃ u, Request.sessionDestroy u ∈ (_lock s env).trace) := by
  constructor
  · constructor
    · intro hok
      by_cases hst : env.kvGetResp.status_code = 200
      · by_cases hmis : env.kvGetResp.entries.any (fun lock => lock.Session != sid)
        · rw [lock_mismatch s sid env hs hco hst hmis] at hok; simp at hok
        · refine ⟨hst, ?_⟩; simpa using hmis
      · rw [lock_read_fail s sid env hs hco hst] at hok; simp at hok
    · rintro ⟨hst, hok⟩
      rw [lock_success s sid env hs hco hst hok]
  · rintro ⟨lk, hlk, hne⟩
    have hmis : env.kvGetResp.entries.any (fun lock => lock.Session != sid) := by
      simp only [List.any_eq_true, bne_iff_ne]
      exact ⟨lk, hlk, hne⟩
    by_cases hst : env.kvGetResp.status_code = 200
    · rw [lock_mismatch s sid env hs hco hst hmis]
      exact ⟨⟨_, rfl⟩, rfl,
        String.intercalate "/" [s.consul_base_path, "v1/session/destroy", sid], by simp⟩
    · rw [lock_read_fail s sid env hs hco hst]
      exact ⟨⟨_, rfl⟩, rfl,
        String.intercalate "/" [s.consul_base_path, "v1/session/destroy", sid], by simp⟩

/-- C1, witness: the amended theorem applied at a concrete held state and a
service whose re-read confirms the session. -/
theorem c1_witness :
    sampleHeld.session_id = some "s1" ∧
    sampleEnvOk.acquireResp.content ≠ "false" ∧
    (_lock sampleHeld sampleEnvOk).result = .ok () :=
  ⟨rfl, by decide,
   (c1_amended sampleHeld "s1" sampleEnvOk rfl (by decide)).1.mpr ⟨rfl, by decide⟩⟩

/-- C2: for every response to the conditional write whose body is the literal
failure sentinel "false", `__enter__` fails with `LockAcquireException`, the
session-destroy request is issued before the error propagates, the cached
session identifier is cleared, and a subsequent `session_is_active` returns
false. -/
theorem c2_sentinel_failure (s : LockState) (env env2 : ConsulEnv)
    (hco : env.acquireResp.content = "false") :
    (__enter__ s env).result = .error (.lockAcquireException "Failed to acquire lock") ∧
    (__enter__ s env).state.session_id = none ∧
    (∃ u, Request.sessionDestroy u ∈ (__enter__ s env).trace) ∧
    (session_is_active (__enter__ s env).state env2).result = .ok false := by
  obtain ⟨sid, hres, hstate⟩ := acquire_session_always_ok s env
  rw [enter_eq, lock_sentinel _ sid env hstate hco]
  refine ⟨rfl, rfl,
    ⟨String.intercalate "/"
       [(_acquire_session s env).state.consul_base_path, "v1/session/destroy", sid], by simp⟩, ?_⟩
  rw [session_is_active_none _ env2 rfl]

/-- C2, witness: the theorem applied at a concrete state and a service whose
conditional write answers the sentinel. -/
theorem c2_witness :
    (__enter__ sampleHeld sampleEnvSentinel).result =
      .error (.lockAcquireException "Failed to acquire lock") ∧
    (__enter__ sampleHeld sampleEnvSentinel).state.session_id = none ∧
    (∃ u, Request.sessionDestroy u ∈ (__enter__ sampleHeld sampleEnvSentinel).trace) ∧
    (session_is_active (__enter__ sampleHeld sampleEnvSentinel).state sampleEnvOk).result =
      .ok false :=
  c2_sentinel_failure sampleHeld sampleEnvSentinel sampleEnvOk rfl

/-- C3: on every path where `_lock` raises `LockAcquireException` (failure
sentinel, non-success re-read status, or an entry bound to a different
session), `_release_session` has run before the exception propagates: the
destroy request is in the trace, the cached session identifier is `None`, and
the heartbeat running flag is cleared. -/
theorem c3_released_on_failure (s : LockState) (env : ConsulEnv) (msg : String)
    (h : (_lock s env).result = .error (.lockAcquireException msg)) :
    (_lock s env).state.session_id = none ∧
    (_lock s env).state.heartbeating = false ∧
    ∃ u, Request.sessionDestroy u ∈ (_lock s env).trace := by
  rcases hs : s.session_id with _ | sid
  · rcases (lock_none s env hs).2 with hr | hr <;> rw [hr] at h <;> simp at h
  · by_cases hco : env.acquireResp.content = "false"
    · rw [lock_sentinel s sid env hs hco]
      exact ⟨rfl, rfl,
        String.intercalate "/" [s.consul_base_path, "v1/session/destroy", sid], by simp⟩
    · by_cases hst : env.kvGetResp.status_code = 200
      · by_cases hmis : env.kvGetResp.entries.any (fun lock => lock.Session != sid)
        · rw [lock_mismatch s sid env hs hco hst hmis]
          exact ⟨rfl, rfl,
            String.intercalate "/" [s.consul_base_path, "v1/session/destroy", sid], by simp⟩
        · have hok : ∀ lock ∈ env.kvGetResp.entries, lock.Session = sid := by simpa using hmis
          rw [lock_success s sid env hs hco hst hok] at h
          simp at h
      · rw [lock_read_fail s sid env hs hco hst]
        exact ⟨rfl, rfl,
          String.intercalate "/" [s.consul_base_path, "v1/session/destroy", sid], by simp⟩

/-- C3, witness: the theorem applied at a concrete held state and the
sentinel-answering service. -/
theorem c3_witness :
    (_lock sampleHeld sampleEnvSentinel).state.session_id = none ∧
    (_lock sampleHeld sampleEnvSentinel).state.heartbeating = false ∧
    ∃ u, Request.sessionDestroy u ∈ (_lock sampleHeld sampleEnvSentinel).trace :=
  c3_released_on_failure sampleHeld sampleEnvSentinel "Failed to acquire lock" rfl

/-- C4: provided the heartbeat/session invariant holds at entry, at the
completion of `_acquire_session` and of `_release_session` the heartbeat
running flag is set iff a session identifier is cached (non-`None`);
acquiring a fresh session starts the heartbeat, and releasing a cached
session clears the identifier and stops the heartbeat. -/
theorem c4_heartbeat_invariant (s : LockState) (env : ConsulEnv)
    (hinv : s.heartbeating = s.session_id.isSome) :
    ((_acquire_session s env).state.heartbeating =
      (_acquire_session s env).state.session_id.isSome) ∧
    ((_release_session s env).state.heartbeating =
      (_release_session s env).state.session_id.isSome) ∧
    (s.session_id = none →
      (_acquire_session s env).state.heartbeating = true ∧
      (_acquire_session s env).state.session_id.isSome) ∧
    (∀ sid, s.session_id = some sid →
      (_release_session s env).state.session_id = none ∧
      (_release_session s env).state.heartbeating = false) := by
  refine ⟨?_, ?_, ?_, ?_⟩
  · rcases hs : s.session_id with _ | sid
    · rw [acquire_session_create s env hs]
      rfl
    · by_cases hst : (env.infoResp sid).status_code = 200
      · by_cases hf : (env.infoResp sid).entries.any (fun session => session.ID == sid)
        · rw [acquire_session_live s sid env hs hst hf]
          simpa [hs] using hinv
        · rw [acquire_session_stale s sid env hs (Or.inr hf)]
          rfl
      · rw [acquire_session_stale s sid env hs (Or.inl hst)]
        rfl
  · rcases hs : s.session_id with _ | sid
    · rw [release_session_none s env hs]
      simpa [hs] using hinv
    · rw [release_session_some s sid env hs]
      rfl
  · intro hs
    rw [acquire_session_create s env hs]
    exact ⟨rfl, rfl⟩
  · intro sid hs
    rw [release_session_some s sid env hs]
    exact ⟨rfl, rfl⟩

/-- C4, witness: the theorem applied at a concrete held state. -/
theorem c4_witness :
    ((_acquire_session sampleHeld sampleEnvOk).state.heartbeating =
      (_acquire_session sampleHeld sampleEnvOk).state.session_id.isSome) ∧
    ((_release_session sampleHeld sampleEnvOk).state.heartbeating =
      (_release_session sampleHeld sampleEnvOk).state.session_id.isSome) ∧
    ((_release_session sampleHeld sampleEnvOk).state.session_id = none ∧
      (_release_session sampleHeld sampleEnvOk).state.heartbeating = false) :=
  ⟨(c4_heartbeat_invariant sampleHeld sampleEnvOk rfl).1,
   (c4_heartbeat_invariant sampleHeld sampleEnvOk rfl).2.1,
   (c4_heartbeat_invariant sampleHeld sampleEnvOk rfl).2.2.2 "s1" rfl⟩

/-- C5: for every call to `_acquire_session` with a cached session identifier,
if the info query has non-success status or the identifier is absent from the
result set, the cached identifier is cleared and the method recurses on the
cleared state, whose run takes the session-creation branch (its trace is
exactly the create request and it caches the created identifier). -/
theorem c5_stale_recreates (s : LockState) (sid : String) (env : ConsulEnv)
    (hs : s.session_id = some sid)
    (hbad : (env.infoResp sid).status_code ≠ 200 ∨
            ∀ session ∈ (env.infoResp sid).entries, session.ID ≠ sid) :
    (_acquire_session s env =
      ⟨(_acquire_session { s with session_id := none } env).result,
       (_acquire_session { s with session_id := none } env).state,
       .sessionInfo (String.intercalate "/" [s.consul_base_path, "v1/session/info", sid]) ::
         (_acquire_session { s with session_id := none } env).trace⟩) ∧
    (_acquire_session { s with session_id := none } env).trace =
      [.sessionCreate (String.intercalate "/" [s.consul_base_path, "v1/session/create"])
         _session_create_payload_json] ∧
    (_acquire_session { s with session_id := none } env).state.session_id =
      some env.createResp.ID := by
  have hbad' : (env.infoResp sid).status_code ≠ 200 ∨
      ¬ (env.infoResp sid).entries.any (fun session => session.ID == sid) := by
    rcases hbad with h | h
    · exact Or.inl h
    · exact Or.inr (by simpa using h)
  rw [acquire_session_stale s sid env hs hbad', acquire_session_create _ env rfl]
  exact ⟨rfl, rfl, rfl⟩

/-- C5, witness: the theorem applied at a concrete held state and a service
whose info query answers 404. -/
theorem c5_witness :
    _acquire_session sampleHeld sampleEnvStale =
      ⟨(_acquire_session { sampleHeld with session_id := none } sampleEnvStale).result,
       (_acquire_session { sampleHeld with session_id := none } sampleEnvStale).state,
       .sessionInfo (String.intercalate "/"
          [sampleHeld.consul_base_path, "v1/session/info", "s1"]) ::
         (_acquire_session { sampleHeld with session_id := none } sampleEnvStale).trace⟩ :=
  (c5_stale_recreates sampleHeld "s1" sampleEnvStale rfl (Or.inl (by decide))).1

/-- C6: for valid (key, value) construction parameters, a completed
`__enter__`/`__exit__` cycle leaves the instance in Idle: `__exit__` runs
`_release_session`, which issues the session-destroy request, sets the cached
session identifier to `None`, and stops the heartbeat worker (flag cleared,
thread handle dropped). -/
theorem c6_cycle_idle (host : String) (port : Nat) (k v : String)
    (s0 : LockState) (env env2 : ConsulEnv)
    (hinit : (__init__ host port (some k) (some v)).1 = .ok s0)
    (henter : (__enter__ s0 env).result = .ok ()) :
    (__exit__ (__enter__ s0 env).state env2).result = .ok () ∧
    (__exit__ (__enter__ s0 env).state env2).state.session_id = none ∧
    (__exit__ (__enter__ s0 env).state env2).state.heartbeating = false ∧
    (__exit__ (__enter__ s0 env).state env2).state.heartbeat_thread = none ∧
    ∃ u, Request.sessionDestroy u ∈ (__exit__ (__enter__ s0 env).state env2).trace := by
  obtain ⟨sid, hres, hstate⟩ := acquire_session_always_ok s0 env
  have henter' : (_lock (_acquire_session s0 env).state env).result = .ok () := by
    rw [enter_eq] at henter
    exact henter
  have hstate2 : (__enter__ s0 env).state.session_id = some sid := by
    rw [enter_eq]
    show (_lock (_acquire_session s0 env).state env).state.session_id = some sid
    rw [lock_ok_state _ env henter']
    exact hstate
  unfold __exit__
  rw [release_session_some _ sid env2 hstate2]
  exact ⟨rfl, rfl, rfl, rfl,
    String.intercalate "/"
      [(__enter__ s0 env).state.consul_base_path, "v1/session/destroy", sid], by simp⟩

/-- C6, witness: the theorem applied to the constructed state and a service
that grants the lock. -/
theorem c6_witness :
    (__exit__ (__enter__ initState sampleEnvOk).state sampleEnvOk).result = .ok () ∧
    (__exit__ (__enter__ initState sampleEnvOk).state sampleEnvOk).state.session_id = none ∧
    (__exit__ (__enter__ initState sampleEnvOk).state sampleEnvOk).state.heartbeating = false ∧
    (__exit__ (__enter__ initState sampleEnvOk).state sampleEnvOk).state.heartbeat_thread = none ∧
    ∃ u, Request.sessionDestroy u ∈
      (__exit__ (__enter__ initState sampleEnvOk).state sampleEnvOk).trace := by
  have henter : (__enter__ initState sampleEnvOk).result = .ok () := by
    rw [enter_eq, acquire_session_create initState sampleEnvOk rfl,
        lock_success _ "s1" sampleEnvOk rfl (by decide) rfl (by decide)]
  exact c6_cycle_idle "http://localhost" 8500 "k" "v" initState sampleEnvOk sampleEnvOk rfl henter

/-- C7: `session_is_active` leaves the instance state unchanged and returns
false when no session identifier is cached, false when the info query has
non-success status or omits the cached identifier from its result set, and
true when the query succeeds and some returned entry's ID equals the cached
identifier. -/
theorem c7_session_check_pure (s : LockState) (env : ConsulEnv) :
    (session_is_active s env).state = s ∧
    (session_is_active s env).result =
      .ok (match s.session_id with
           | none => false
           | some sid => ((env.infoResp sid).status_code == 200) &&
                         (env.infoResp sid).entries.any (fun session => session.ID == sid)) := by
  obtain ⟨base, sid?, hb, ht, k, v⟩ := s
  rcases sid? with _ | sid
  · rw [session_is_active_none _ env rfl]
    exact ⟨rfl, rfl⟩
  · rw [session_is_active_some _ sid env rfl]
    exact ⟨rfl, rfl⟩

/-- C8: construction issues no request, raises `LockParameterException` iff
the lock key or the lock value is absent, and when both are supplied returns
the fully initialised instance state without error. -/
theorem c8_init_validation (host : String) (port : Nat) (k v : Option String) :
    (__init__ host port k v).2 = [] ∧
    ((k = none ∨ v = none) ↔
      (__init__ host port k v).1 =
        .error (.lockParameterException "lock_key and lock_value are required parameters")) ∧
    (∀ k' v', k = some k' → v = some v' →
      (__init__ host port k v).1 = .ok
        { consul_base_path := host ++ ":" ++ toString port, session_id := none,
          heartbeating := false, heartbeat_thread := none,
          lock_key := k', lock_value := v' }) := by
  rcases k with _ | k' <;> rcases v with _ | v' <;> simp [__init__]

/-- C8, witness: the theorem applied with an absent key and with both
parameters supplied. -/
theorem c8_witness :
    (__init__ "http://localhost" 8500 none (some "v")).1 =
      .error (.lockParameterException "lock_key and lock_value are required parameters") ∧
    (__init__ "http://localhost" 8500 (some "k") (some "v")).1 = .ok initState ∧
    (__init__ "http://localhost" 8500 (some "k") (some "v")).2 = [] :=
  ⟨((c8_init_validation "http://localhost" 8500 none (some "v")).2.1).mp (Or.inl rfl),
   (((c8_init_validation "http://localhost" 8500 (some "k") (some "v")).2.2) "k" "v" rfl rfl).trans rfl,
   (c8_init_validation "http://localhost" 8500 (some "k") (some "v")).1⟩

/-- C9: the self-recursion depth of `_acquire_session` is at most one: two
units of fuel always suffice for the fuel-indexed variant to agree with
`_acquire_session`, and from a state with no cached session (the creation
branch) one unit suffices. -/
theorem c9_depth_bound (s : LockState) (env : ConsulEnv) :
    _acquire_session_fuel 2 s env = some (_acquire_session s env) ∧
    (s.session_id = none → _acquire_session_fuel 1 s env = some (_acquire_session s env)) := by
  refine ⟨?_, fun hs => acquire_session_fuel_one_none s env hs⟩
  obtain ⟨base, sid?, hb, ht, k, v⟩ := s
  rcases sid? with _ | sid
  · rw [acquire_session_create _ env rfl]
    cases ht <;> rfl
  · by_cases hst : (env.infoResp sid).status_code = 200
    · by_cases hf : (env.infoResp sid).entries.any (fun session => session.ID == sid)
      · rw [acquire_session_live _ sid env rfl hst hf]
        simp only [_acquire_session_fuel, session_endpoints_info_eq, endpoint_two]
        simp [hst, hf]
      · rw [acquire_session_stale _ sid env rfl (Or.inr hf)]
        simp only [_acquire_session_fuel, session_endpoints_info_eq, endpoint_two,
          session_endpoints_create_eq, endpoint_one]
        simp [hst, hf]
        cases ht <;> rfl
    · rw [acquire_session_stale _ sid env rfl (Or.inl hst)]
      simp only [_acquire_session_fuel, session_endpoints_info_eq, endpoint_two,
        session_endpoints_create_eq, endpoint_one]
      simp [hst]
      cases ht <;> rfl

/-- C9, witness: the theorem applied at a concrete held state and at the
concrete Idle state. -/
theorem c9_witness :
    _acquire_session_fuel 2 sampleHeld sampleEnvOk =
      some (_acquire_session sampleHeld sampleEnvOk) ∧
    _acquire_session_fuel 1 sampleIdle sampleEnvOk =
      some (_acquire_session sampleIdle sampleEnvOk) :=
  ⟨(c9_depth_bound sampleHeld sampleEnvOk).1,
   (c9_depth_bound sampleIdle sampleEnvOk).2 rfl⟩

/-- C10: calling `_release_session` with no cached session identifier is not a
safe no-op: building the destroy endpoint joins the `None` identifier into
the URL path and raises a `TypeError`, leaving the state untouched and making
no request; under the precondition that a session identifier is cached, this
error branch is unreachable and the call returns `None` normally. -/
theorem c10_release_precondition (s : LockState) (env : ConsulEnv) :
    (s.session_id = none →
       _release_session s env =
         ⟨.error (.typeError "sequence item: expected str instance, NoneType found"), s, []⟩) ∧
    (∀ sid, s.session_id = some sid →
       (_release_session s env).result = .ok none ∧
       ∀ msg, (_release_session s env).result ≠ .error (.typeError msg)) := by
  constructor
  · intro hs
    exact release_session_none s env hs
  · intro sid hs
    rw [release_session_some s sid env hs]
    exact ⟨rfl, fun msg => by simp⟩

/-- C10, witness: the theorem applied at the concrete Idle state and at the
concrete held state. -/
theorem c10_witness :
    _release_session sampleIdle sampleEnvOk =
      ⟨.error (.typeError "sequence item: expected str instance, NoneType found"),
       sampleIdle, []⟩ ∧
    (_release_session sampleHeld sampleEnvOk).result = .ok none :=
  ⟨(c10_release_precondition sampleIdle sampleEnvOk).1 rfl,
   ((c10_release_precondition sampleHeld sampleEnvOk).2 "s1" rfl).1⟩

end ConsulLock
